import Mathlib

/-!
# Verification of the tyl-errors library

Shallow embedding of the `tyl-errors` Rust crate (error classification and
retry-policy library) and proofs of its specified properties.

Modelling conventions:
* `Duration` values are modelled as `Nat` numbers of milliseconds; every
  duration the library manipulates is a whole number of milliseconds.
* Rust `usize`/`u32`/`u64` arithmetic is modelled on `Nat` where the
  source's values cannot overflow (`2^(min attempt 10) ≤ 1024` fits `u32`,
  all delay products fit `u64`); the two reachable wrapping operations are
  modelled exactly: the `(attempt - 1) as i32` exponent cast in
  `RetryPolicy::calculate_delay` (two's-complement low 32 bits, `i32cast`)
  and the usize `attempt_count += 1` in `ErrorContext` (modulo `2^64`,
  release-build semantics; debug builds panic at the wrap).
* `f64` arithmetic in `RetryPolicy` is modelled by exact rational arithmetic
  (`ℚ`); the `as u64` cast is truncation, modelled by `Int.floor` followed by
  `Int.toNat` (negative values clamp to 0, as Rust's saturating float-to-int
  cast does).
* The pseudo-random hash feeding the jitter (`DefaultHasher` over thread id
  and system time, `src/retry.rs`) is modelled as an explicit `Nat` argument
  `hash`; the code then uses `hash % 50`.
* A `Box<dyn ErrorClassifier>` trait object is modelled as a record of its
  three methods.
-/

/-- Built-in error categories (Rust `BuiltinCategory`, src/category.rs). -/
inductive BuiltinCategory where
  | Transient
  | Permanent
  | ResourceExhaustion
  | Network
  | Authentication
  | Validation
  | Internal
  | ServiceUnavailable
  | Unknown
deriving DecidableEq, Repr

/-- Rust `BuiltinCategory::is_retriable` (src/category.rs:62-70): matches
Transient | Network | ServiceUnavailable | ResourceExhaustion. -/
def BuiltinCategory.is_retriable : BuiltinCategory → Bool
  | .Transient => true
  | .Network => true
  | .ServiceUnavailable => true
  | .ResourceExhaustion => true
  | _ => false

/-- Rust `BuiltinCategory::retry_delay` (src/category.rs:72-83), in milliseconds:
a base delay selected by category, times `min (2 ^ min attempt 10) 60`. -/
def BuiltinCategory.retry_delay (c : BuiltinCategory) (attempt : Nat) : Nat :=
  let base_delay : Nat :=
    match c with
    | .Transient => 100
    | .Network => 500
    | .ServiceUnavailable => 1000
    | .ResourceExhaustion => 5000
    | _ => 100
  let multiplier : Nat := 2 ^ (min attempt 10)
  base_delay * min multiplier 60

/-- Rust `BuiltinCategory::category_name` (src/category.rs:85-97). -/
def BuiltinCategory.category_name : BuiltinCategory → String
  | .Transient => "Transient"
  | .Permanent => "Permanent"
  | .ResourceExhaustion => "ResourceExhaustion"
  | .Network => "Network"
  | .Authentication => "Authentication"
  | .Validation => "Validation"
  | .Internal => "Internal"
  | .ServiceUnavailable => "ServiceUnavailable"
  | .Unknown => "Unknown"

/-- A `Box<dyn ErrorClassifier>` trait object (src/category.rs:13-25),
modelled as the record of its three methods. -/
structure ErrorClassifier where
  is_retriable : Bool
  retry_delay : Nat → Nat
  category_name : String

/-- View a built-in category through the `ErrorClassifier` trait
(`impl ErrorClassifier for BuiltinCategory`, src/category.rs:61-102). -/
def BuiltinCategory.toClassifier (b : BuiltinCategory) : ErrorClassifier :=
  { is_retriable := b.is_retriable
    retry_delay := b.retry_delay
    category_name := b.category_name }

/-- Rust `default_classifier` (src/category.rs:34-36): the Unknown built-in boxed
as a classifier, used as the deserialization fallback. -/
def default_classifier : ErrorClassifier :=
  BuiltinCategory.Unknown.toClassifier

/-- Rust `ErrorCategory` (src/category.rs:108-113). -/
inductive ErrorCategory where
  | Builtin (b : BuiltinCategory)
  | Custom (c : ErrorClassifier)

/-- Rust `ErrorCategory::is_retriable` (src/category.rs:166-171). -/
def ErrorCategory.is_retriable : ErrorCategory → Bool
  | .Builtin b => b.is_retriable
  | .Custom c => c.is_retriable

/-- Rust `ErrorCategory::retry_delay` (src/category.rs:174-179). -/
def ErrorCategory.retry_delay : ErrorCategory → Nat → Nat
  | .Builtin b => b.retry_delay
  | .Custom c => c.retry_delay

/-- Rust `ErrorCategory::category_name` (src/category.rs:182-187). -/
def ErrorCategory.category_name : ErrorCategory → String
  | .Builtin b => b.category_name
  | .Custom c => c.category_name

/-- The base-delay table of the specification, in milliseconds:
Transient 100, Network 500, ServiceUnavailable 1000, ResourceExhaustion 5000,
every other built-in 100. Stated with all nine categories explicit so it can
be compared against the code's wildcard match. -/
def baseDelaySpec : BuiltinCategory → Nat
  | .Transient => 100
  | .Network => 500
  | .ServiceUnavailable => 1000
  | .ResourceExhaustion => 5000
  | .Permanent => 100
  | .Authentication => 100
  | .Validation => 100
  | .Internal => 100
  | .Unknown => 100

/-- C1: for every built-in category and attempt, `retry_delay` returns the
specification's base delay for that category multiplied by
`min (2 ^ min attempt 10) 60`. -/
theorem retry_delay_eq_base_times_capped_multiplier
    (c : BuiltinCategory) (a : Nat) :
    c.retry_delay a = baseDelaySpec c * min (2 ^ min a 10) 60 := by
  cases c <;> rfl

/-- C2: a built-in category is retriable exactly when it is Transient,
Network, ServiceUnavailable or ResourceExhaustion. -/
theorem is_retriable_iff_mem_retriable_set (c : BuiltinCategory) :
    c.is_retriable = true ↔
      (c = .Transient ∨ c = .Network ∨ c = .ServiceUnavailable ∨
        c = .ResourceExhaustion) := by
  cases c <;> simp [BuiltinCategory.is_retriable]

/-- C6: from attempt 6 on, the Network delay saturates at `500 * 60` ms. -/
theorem network_retry_delay_saturates (a : Nat) (h : 6 ≤ a) :
    BuiltinCategory.Network.retry_delay a = 500 * 60 := by
  have h6 : 6 ≤ min a 10 := le_min h (by omega)
  have hpow : 60 ≤ 2 ^ (min a 10) :=
    le_trans (by omega) (Nat.pow_le_pow_right (by omega) h6)
  unfold BuiltinCategory.retry_delay
  simp [Nat.min_eq_right hpow]

/-- Witness for C6 at attempt 6. -/
theorem network_retry_delay_saturates_witness :
    BuiltinCategory.Network.retry_delay 6 = 500 * 60 :=
  network_retry_delay_saturates 6 (by decide)

/-- C7: for a retriable built-in category, the delay is monotonically
non-decreasing in the attempt number while both attempts are at most 10. -/
theorem retry_delay_monotone (c : BuiltinCategory) (a1 a2 : Nat)
    (_hr : c.is_retriable = true) (hlt : a1 < a2) (hle : a2 ≤ 10) :
    c.retry_delay a1 ≤ c.retry_delay a2 := by
  unfold BuiltinCategory.retry_delay
  have hmin : min a1 10 ≤ min a2 10 := by omega
  have hpow : 2 ^ (min a1 10) ≤ 2 ^ (min a2 10) :=
    Nat.pow_le_pow_right (by omega) hmin
  exact Nat.mul_le_mul_left _ (le_min (le_trans (min_le_left _ _) hpow)
    (min_le_right _ _))

/-- Witness for C7: Transient, attempts 1 < 2. -/
theorem retry_delay_monotone_witness :
    BuiltinCategory.Transient.retry_delay 1 ≤
      BuiltinCategory.Transient.retry_delay 2 :=
  retry_delay_monotone .Transient 1 2 (by decide) (by decide) (by decide)

/-- Rust `TylError` (src/error.rs:20-52). The `Custom` variant carries its boxed
classifier. -/
inductive TylError where
  | Database (message : String)
  | Network (message : String)
  | Validation (field message : String)
  | NotFound (resource id : String)
  | Conflict (message : String)
  | Internal (message : String)
  | Configuration (message : String)
  | NotImplemented (feature : String)
  | Custom (message : String) (classifier : ErrorClassifier)

/-- Rust `TylError::category` (src/error.rs:163-175). -/
def TylError.category : TylError → ErrorCategory
  | .Database _ => .Builtin .Transient
  | .Network _ => .Builtin .Network
  | .Validation _ _ => .Builtin .Validation
  | .NotFound _ _ => .Builtin .Permanent
  | .Conflict _ => .Builtin .Permanent
  | .Internal _ => .Builtin .Internal
  | .Configuration _ => .Builtin .Permanent
  | .NotImplemented _ => .Builtin .Permanent
  | .Custom _ classifier => .Custom classifier

/-- Rust `TylError::should_retry` (src/error.rs:207-209). The process-wide
`max_retries` setting (read once from the environment, src/settings.rs) is
passed as the explicit parameter `max_retries`. -/
def TylError.should_retry (max_retries : Nat) (e : TylError)
    (attempt : Nat) : Bool :=
  e.category.is_retriable && decide (attempt < max_retries)

/-- C3: `should_retry attempt` holds exactly when the error's category is
retriable and `attempt` is strictly below the configured max-retries. -/
theorem should_retry_iff (max_retries : Nat) (e : TylError) (attempt : Nat) :
    e.should_retry max_retries attempt = true ↔
      (e.category.is_retriable = true ∧ attempt < max_retries) := by
  simp [TylError.should_retry]

/-- Rust `RetryPolicy` (src/retry.rs:45-56). Durations in whole milliseconds;
the `f64` backoff multiplier as an exact rational. -/
structure RetryPolicy where
  max_attempts : Nat
  base_delay : Nat
  max_delay : Nat
  backoff_multiplier : ℚ
  jitter : Bool

/-- Rust `RetryPolicy::with_jitter` (src/retry.rs:101-104). -/
def RetryPolicy.with_jitter (p : RetryPolicy) (j : Bool) : RetryPolicy :=
  { p with jitter := j }

/-- Rust `RetryPolicy::fast` (src/retry.rs:169-177). -/
def RetryPolicy.fast : RetryPolicy :=
  { max_attempts := 3
    base_delay := 50
    max_delay := 1000
    backoff_multiplier := 3 / 2
    jitter := true }

/-- Rust `RetryPolicy::add_jitter` (src/retry.rs:150-163): the hash of
thread id and system time is the argument `hash`; the jitter factor is
`(hash % 50) / 100 + 0.75`, i.e. between 0.75 and 1.24 in steps of 0.01, and
the scaled delay is truncated back to whole milliseconds. -/
def RetryPolicy.add_jitter (_p : RetryPolicy) (delay : Nat) (hash : Nat) :
    Nat :=
  let jitter_factor : ℚ := ((hash % 50 : Nat) : ℚ) / 100 + 3 / 4
  (⌊(delay : ℚ) * jitter_factor⌋).toNat

/-- Interpretation of Rust `as i32` applied to a usize value: keep the low
32 bits and read them as two's complement. Applied to `(attempt - 1)` in
src/retry.rs:119, where it wraps for attempts above `2^31`. -/
def i32cast (n : Nat) : Int :=
  let r : Nat := n % 2 ^ 32
  if r < 2 ^ 31 then (r : Int) else (r : Int) - 2 ^ 32

/-- Below `2^31` the `as i32` cast is the identity. -/
theorem i32cast_of_lt (n : Nat) (h : n < 2 ^ 31) : i32cast n = (n : Int) := by
  have hm : n % 2 ^ 32 = n := Nat.mod_eq_of_lt (by omega)
  unfold i32cast
  simp only [hm]
  rw [if_pos h]

/-- Rust `RetryPolicy::calculate_delay` (src/retry.rs:113-134): 0 for
attempt 0; otherwise `base_delay * backoff_multiplier.powi((attempt - 1)
as i32)` truncated to whole milliseconds, capped at `max_delay`, then
jittered when `jitter` is set. The exponent carries the `as i32` cast of
the source, so it wraps for attempts above `2^31`. -/
def RetryPolicy.calculate_delay (p : RetryPolicy) (attempt : Nat)
    (hash : Nat) : Nat :=
  if attempt = 0 then 0
  else
    let exponential_delay : ℚ :=
      (p.base_delay : ℚ) * p.backoff_multiplier ^ (i32cast (attempt - 1))
    let delay : Nat := (⌊exponential_delay⌋).toNat
    let capped : Nat := if p.max_delay < delay then p.max_delay else delay
    if p.jitter then p.add_jitter capped hash else capped

/-- Lower bound of the jitter step: the factor is at least 0.75, so the
jittered value is at least `⌊0.75 * delay⌋`. -/
theorem le_add_jitter (p : RetryPolicy) (delay hash : Nat) :
    (⌊(3 / 4 : ℚ) * (delay : ℚ)⌋).toNat ≤ p.add_jitter delay hash := by
  unfold RetryPolicy.add_jitter
  have hfac : (3 / 4 : ℚ) ≤ ((hash % 50 : Nat) : ℚ) / 100 + 3 / 4 := by
    have : (0 : ℚ) ≤ ((hash % 50 : Nat) : ℚ) / 100 := by positivity
    linarith
  have hmul : (3 / 4 : ℚ) * (delay : ℚ) ≤
      (delay : ℚ) * (((hash % 50 : Nat) : ℚ) / 100 + 3 / 4) := by
    rw [mul_comm]
    exact mul_le_mul_of_nonneg_left hfac (by positivity)
  exact Int.toNat_le_toNat (Int.floor_le_floor hmul)

/-- Upper bound of the jitter step: the factor is at most 1.24 < 1.25, so
the jittered value is at most 1.25 times the input delay. -/
theorem add_jitter_le (p : RetryPolicy) (delay hash : Nat) :
    ((p.add_jitter delay hash : Nat) : ℚ) ≤ (5 / 4 : ℚ) * (delay : ℚ) := by
  unfold RetryPolicy.add_jitter
  have hfac : ((hash % 50 : Nat) : ℚ) / 100 + 3 / 4 ≤ 5 / 4 := by
    have h49 : ((hash % 50 : Nat) : ℚ) ≤ 49 := by
      exact_mod_cast Nat.cast_le.mpr (Nat.le_of_lt_succ (Nat.mod_lt _
        (by omega)))
    linarith
  have hnn : (0 : ℚ) ≤ (delay : ℚ) * (((hash % 50 : Nat) : ℚ) / 100 + 3 / 4) := by
    positivity
  have hfloor : ((⌊(delay : ℚ) * (((hash % 50 : Nat) : ℚ) / 100 + 3 / 4)⌋).toNat : ℚ) =
      ((⌊(delay : ℚ) * (((hash % 50 : Nat) : ℚ) / 100 + 3 / 4)⌋ : ℤ) : ℚ) := by
    exact_mod_cast congrArg Int.cast
      (Int.toNat_of_nonneg (Int.le_floor.mpr (by simpa using hnn)))
  calc ((⌊(delay : ℚ) * (((hash % 50 : Nat) : ℚ) / 100 + 3 / 4)⌋).toNat : ℚ)
      = ((⌊(delay : ℚ) * (((hash % 50 : Nat) : ℚ) / 100 + 3 / 4)⌋ : ℤ) : ℚ) :=
        hfloor
    _ ≤ (delay : ℚ) * (((hash % 50 : Nat) : ℚ) / 100 + 3 / 4) := Int.floor_le _
    _ ≤ (delay : ℚ) * (5 / 4) :=
        mul_le_mul_of_nonneg_left hfac (by positivity)
    _ = (5 / 4 : ℚ) * (delay : ℚ) := mul_comm _ _

/-- With jitter enabled and attempt nonzero, the delay is the jitter step
applied to what the same policy would return with jitter disabled. -/
theorem calculate_delay_jitter_eq (p : RetryPolicy) (a hash : Nat)
    (hj : p.jitter = true) (ha : a ≠ 0) :
    p.calculate_delay a hash =
      p.add_jitter ((p.with_jitter false).calculate_delay a hash) hash := by
  simp only [RetryPolicy.calculate_delay, RetryPolicy.with_jitter, if_neg ha,
    hj]
  rfl

/-- C5 (amended): with jitter enabled, the delay lies between
`⌊0.75 * d⌋` and `1.25 * d`, where `d` is the delay the same policy computes
with jitter disabled; the lower end incurs up to one millisecond of downward
rounding from the whole-millisecond truncation of the scaled delay. -/
theorem calculate_delay_jitter_bounds (p : RetryPolicy) (a hash : Nat)
    (hj : p.jitter = true) :
    (⌊(3 / 4 : ℚ) *
        (((p.with_jitter false).calculate_delay a hash : Nat) : ℚ)⌋).toNat ≤
      p.calculate_delay a hash ∧
    ((p.calculate_delay a hash : Nat) : ℚ) ≤
      (5 / 4 : ℚ) *
        (((p.with_jitter false).calculate_delay a hash : Nat) : ℚ) := by
  by_cases ha : a = 0
  · subst ha
    constructor
    · show (⌊(3 / 4 : ℚ) * ((0 : Nat) : ℚ)⌋).toNat ≤ 0
      norm_num
    · show ((0 : Nat) : ℚ) ≤ (5 / 4 : ℚ) * ((0 : Nat) : ℚ)
      norm_num
  · rw [calculate_delay_jitter_eq p a hash hj ha]
    exact ⟨le_add_jitter p _ hash, add_jitter_le p _ hash⟩

/-- Witness for C5 (amended): fast policy, attempt 1, hash outcome 0. -/
theorem calculate_delay_jitter_bounds_witness :
    (⌊(3 / 4 : ℚ) *
        (((RetryPolicy.fast.with_jitter false).calculate_delay 1 0 : Nat) :
          ℚ)⌋).toNat ≤
      RetryPolicy.fast.calculate_delay 1 0 ∧
    ((RetryPolicy.fast.calculate_delay 1 0 : Nat) : ℚ) ≤
      (5 / 4 : ℚ) *
        (((RetryPolicy.fast.with_jitter false).calculate_delay 1 0 : Nat) :
          ℚ) :=
  calculate_delay_jitter_bounds RetryPolicy.fast 1 0 rfl

/-- Counterexample to C5 as stated: for the fast policy (50 ms base) at
attempt 1 with hash outcome 0 (jitter factor exactly 0.75), the jittered
delay is 37 ms, strictly below 0.75 times the unjittered 50 ms. -/
theorem jitter_bounds_counterexample :
    RetryPolicy.fast.calculate_delay 1 0 = 37 ∧
    (RetryPolicy.fast.with_jitter false).calculate_delay 1 0 = 50 ∧
    ¬ ((3 / 4 : ℚ) *
        (((RetryPolicy.fast.with_jitter false).calculate_delay 1 0 : Nat) :
          ℚ) ≤
        ((RetryPolicy.fast.calculate_delay 1 0 : Nat) : ℚ)) := by
  have h37 : RetryPolicy.fast.calculate_delay 1 0 = 37 := by
    show (RetryPolicy.fast.add_jitter
      (if (1000 : Nat) < (⌊(50 : ℚ) * (3 / 2) ^ (i32cast (1 - 1))⌋).toNat
        then (1000 : Nat) else (⌊(50 : ℚ) * (3 / 2) ^ (i32cast (1 - 1))⌋).toNat) 0) = 37
    rw [i32cast_of_lt (1 - 1) (by norm_num), zpow_natCast]
    norm_num [RetryPolicy.add_jitter]
    rw [show Int.toNat 50 = 50 from rfl]
    norm_num
    rfl
  have h50 : (RetryPolicy.fast.with_jitter false).calculate_delay 1 0 = 50 := by
    show (if (1000 : Nat) < (⌊(50 : ℚ) * (3 / 2) ^ (i32cast (1 - 1))⌋).toNat
      then (1000 : Nat) else (⌊(50 : ℚ) * (3 / 2) ^ (i32cast (1 - 1))⌋).toNat) = 50
    rw [i32cast_of_lt (1 - 1) (by norm_num), zpow_natCast]
    norm_num
    rfl
  refine ⟨h37, h50, ?_⟩
  rw [h37, h50]
  norm_num

/-- Serialized form of `TylError` as produced by the serde derive
(src/error.rs:19-52): every variant keeps its string fields; the `Custom`
variant's `classifier` field is `#[serde(skip)]`, so its serialized form
carries only the message. -/
inductive SerializedTylError where
  | Database (message : String)
  | Network (message : String)
  | Validation (field message : String)
  | NotFound (resource id : String)
  | Conflict (message : String)
  | Internal (message : String)
  | Configuration (message : String)
  | NotImplemented (feature : String)
  | Custom (message : String)

/-- Serialization of `TylError` (serde derive with `#[serde(skip)]` on
`classifier`, src/error.rs:45-51): drops the classifier of `Custom`. -/
def TylError.serialize : TylError → SerializedTylError
  | .Database m => .Database m
  | .Network m => .Network m
  | .Validation f m => .Validation f m
  | .NotFound r i => .NotFound r i
  | .Conflict m => .Conflict m
  | .Internal m => .Internal m
  | .Configuration m => .Configuration m
  | .NotImplemented f => .NotImplemented f
  | .Custom m _ => .Custom m

/-- Deserialization of `TylError` (serde derive with
`#[serde(default = "default_classifier")]`, src/error.rs:45-51): `Custom`
gets the default fallback classifier. -/
def SerializedTylError.deserialize : SerializedTylError → TylError
  | .Database m => .Database m
  | .Network m => .Network m
  | .Validation f m => .Validation f m
  | .NotFound r i => .NotFound r i
  | .Conflict m => .Conflict m
  | .Internal m => .Internal m
  | .Configuration m => .Configuration m
  | .NotImplemented f => .NotImplemented f
  | .Custom m => .Custom m default_classifier

/-- C8: round-tripping a Custom error keeps the message but replaces the
classifier by the default fallback, so the result's category is named
"Unknown" and behaves exactly as the built-in Unknown category. -/
theorem custom_roundtrip_downgrades_to_unknown (msg : String)
    (cl : ErrorClassifier) :
    (TylError.Custom msg cl).serialize.deserialize =
      TylError.Custom msg default_classifier ∧
    ((TylError.Custom msg cl).serialize.deserialize).category.category_name =
      "Unknown" ∧
    ((TylError.Custom msg cl).serialize.deserialize).category.is_retriable =
      (ErrorCategory.Builtin .Unknown).is_retriable ∧
    ∀ a, ((TylError.Custom msg
      cl).serialize.deserialize).category.retry_delay a =
        (ErrorCategory.Builtin .Unknown).retry_delay a :=
  ⟨rfl, rfl, rfl, fun _ => rfl⟩

/-- C9: at attempt 0 the built-in category delay equals its (positive) base
delay, while every `RetryPolicy` returns a zero delay at attempt 0 — the two
public delay functions disagree there. -/
theorem retry_delay_zero_ne_calculate_delay_zero (c : BuiltinCategory)
    (p : RetryPolicy) (hash : Nat) :
    c.retry_delay 0 = baseDelaySpec c ∧
    0 < c.retry_delay 0 ∧
    p.calculate_delay 0 hash = 0 ∧
    c.retry_delay 0 ≠ p.calculate_delay 0 hash := by
  have hz : p.calculate_delay 0 hash = 0 := rfl
  refine ⟨?_, ?_, hz, ?_⟩
  · cases c <;> rfl
  · cases c <;> decide
  · rw [hz]
    cases c <;> decide

/-- Model of `serde_json::Value` for the metadata map; the claims about
`ErrorContext` do not depend on the value's structure. -/
inductive JsonValue where
  | null
  | bool (b : Bool)
  | num (n : Int)
  | str (s : String)
deriving DecidableEq, Repr

/-- Insert-or-overwrite on an association list, modelling
`HashMap::insert` as used by the metadata map of `ErrorContext`. -/
def insertMeta (m : List (String × JsonValue)) (key : String)
    (value : JsonValue) : List (String × JsonValue) :=
  match m with
  | [] => [(key, value)]
  | (k', v') :: rest =>
    if k' = key then (key, value) :: rest
    else (k', v') :: insertMeta rest key value

/-- Rust `ErrorContext` (src/context.rs:17-34). The `Uuid` identity is a
`Nat`, the `DateTime<Utc>` timestamp an `Int`, the `HashMap` metadata an
association list. -/
structure ErrorContext where
  error_id : Nat
  operation : String
  category : ErrorCategory
  message : String
  occurred_at : Int
  attempt_count : Nat
  metadata : List (String × JsonValue)

/-- Rust `ErrorContext::with_metadata` (src/context.rs:79-82). -/
def ErrorContext.with_metadata (c : ErrorContext) (key : String)
    (value : JsonValue) : ErrorContext :=
  { c with metadata := insertMeta c.metadata key value }

/-- Rust `ErrorContext::increment_attempt` (src/context.rs:88-90): the
usize `attempt_count += 1`, which wraps modulo `2^64` at `usize::MAX` in
release builds (debug builds panic there; the model takes the release
semantics). -/
def ErrorContext.increment_attempt (c : ErrorContext) : ErrorContext :=
  { c with attempt_count := (c.attempt_count + 1) % 2 ^ 64 }

/-- Rust `ErrorContext::add_metadata` (src/context.rs:97-99). -/
def ErrorContext.add_metadata (c : ErrorContext) (key : String)
    (value : JsonValue) : ErrorContext :=
  { c with metadata := insertMeta c.metadata key value }

/-- Key lookup on the metadata association list, modelling `HashMap::get`
as used by `ErrorContext::get_metadata` (src/context.rs:108-110). -/
def lookupMeta (m : List (String × JsonValue)) (key : String) :
    Option JsonValue :=
  match m with
  | [] => none
  | (k', v') :: rest => if k' = key then some v' else lookupMeta rest key

/-- Rust `ErrorContext::get_metadata` (src/context.rs:108-110). -/
def ErrorContext.get_metadata (c : ErrorContext) (key : String) :
    Option JsonValue :=
  lookupMeta c.metadata key

/-- Lookup after insert-or-overwrite: the inserted key maps to the new
value, every other key is unchanged. -/
theorem lookupMeta_insertMeta (m : List (String × JsonValue)) (key : String)
    (value : JsonValue) (k' : String) :
    lookupMeta (insertMeta m key value) k' =
      if key = k' then some value else lookupMeta m k' := by
  induction m with
  | nil => simp [insertMeta, lookupMeta]
  | cons hd tl ih =>
    obtain ⟨a, b⟩ := hd
    by_cases hak : a = key
    · subst hak
      simp only [insertMeta, if_pos rfl, lookupMeta]
      by_cases hk : a = k'
      · simp [hk]
      · simp [hk]
    · simp only [insertMeta, if_neg hak, lookupMeta]
      by_cases hk : a = k'
      · have hkk : ¬ (key = k') := fun h => hak (hk.trans h.symm)
        simp [hk, hkk]
      · simp only [if_neg hk]
        exact ih

/-- C10 (amended): each `ErrorContext` mutator touches only its own field:
`increment_attempt` changes `attempt_count` to its old value plus 1 modulo
`2^64` (the usize wrap; exactly old value plus 1 whenever that does not
overflow) and preserves every other field; `add_metadata` and
`with_metadata` perform the same insert-or-overwrite on the metadata map
only, preserving every other field. -/
theorem context_mutators_frame (c : ErrorContext) (key : String)
    (value : JsonValue) :
    (c.increment_attempt.attempt_count = (c.attempt_count + 1) % 2 ^ 64 ∧
      (c.attempt_count + 1 < 2 ^ 64 →
        c.increment_attempt.attempt_count = c.attempt_count + 1) ∧
      c.increment_attempt.error_id = c.error_id ∧
      c.increment_attempt.operation = c.operation ∧
      c.increment_attempt.category = c.category ∧
      c.increment_attempt.message = c.message ∧
      c.increment_attempt.occurred_at = c.occurred_at ∧
      c.increment_attempt.metadata = c.metadata) ∧
    ((c.add_metadata key value).metadata = insertMeta c.metadata key value ∧
      (∀ k', (c.add_metadata key value).get_metadata k' =
        if key = k' then some value else c.get_metadata k') ∧
      (c.add_metadata key value).error_id = c.error_id ∧
      (c.add_metadata key value).operation = c.operation ∧
      (c.add_metadata key value).category = c.category ∧
      (c.add_metadata key value).message = c.message ∧
      (c.add_metadata key value).occurred_at = c.occurred_at ∧
      (c.add_metadata key value).attempt_count = c.attempt_count) ∧
    c.with_metadata key value = c.add_metadata key value :=
  ⟨⟨rfl, fun h => Nat.mod_eq_of_lt h, rfl, rfl, rfl, rfl, rfl, rfl⟩,
    ⟨rfl, fun k' => lookupMeta_insertMeta c.metadata key value k',
      rfl, rfl, rfl, rfl, rfl, rfl⟩,
    rfl⟩

/-- Witness for C10: a concrete context with attempt count 1, below the
wrap. -/
theorem context_mutators_frame_witness :
    (ErrorContext.mk 0 "api_call" (.Builtin .Network) "Timeout" 0 1
      []).increment_attempt.attempt_count = 1 + 1 :=
  (context_mutators_frame
    (ErrorContext.mk 0 "api_call" (.Builtin .Network) "Timeout" 0 1 [])
    "endpoint" (JsonValue.str "/api/users")).1.2.1 (by decide)

/-- Counterexample to C10 as stated: at `attempt_count = usize::MAX`
(`2^64 - 1`, a representable value of the public field), the usize
increment wraps to 0, which is not the old value plus 1. -/
theorem increment_attempt_wrap_counterexample :
    (ErrorContext.mk 1 "retry_operation" (.Builtin .Transient) "boom" 0
      (2 ^ 64 - 1) []).increment_attempt.attempt_count = 0 ∧
    (ErrorContext.mk 1 "retry_operation" (.Builtin .Transient) "boom" 0
      (2 ^ 64 - 1) []).increment_attempt.attempt_count ≠
      (2 ^ 64 - 1) + 1 := by
  have h0 : (ErrorContext.mk 1 "retry_operation" (.Builtin .Transient)
      "boom" 0 (2 ^ 64 - 1) []).increment_attempt.attempt_count = 0 := by
    show ((2 ^ 64 - 1) + 1) % 2 ^ 64 = 0
    norm_num
  refine ⟨h0, ?_⟩
  rw [h0]
  norm_num
